import Mathlib

/-!
Verification development for the FileUploadService repository.

The Python sources are shallowly embedded below.  Strings are modelled as
Lean `String` / `List Char`; the character-level regex classes (`\w`, `\s`)
and `str.lower` are modelled for the ASCII range: theorems whose truth
depends on those classes carry an explicit ASCII-input hypothesis or use
concrete ASCII inputs, and only class-independent statements are made for
arbitrary strings.  File sizes are modelled as exact integers (the code
stores floats but never writes a fractional value in the verified paths),
byte streams as `List Nat`, the database as lists of rows,
and the upload directory as a list of `(path, bytes)` pairs.  Wall-clock
data (timestamps, JWT tokens, bcrypt salts) is not modelled: no claim
depends on it.
-/

namespace FUS

/-- fastapi.HTTPException: an HTTP status code plus a detail message. -/
structure HTTPException where
  status_code : Nat
  detail : String
deriving DecidableEq, Repr

/-- app/core/config.py `Settings`: the fields read by the embedded code.
The environment-variable overrides are not modelled; `settings` below is
the default instance. -/
structure Settings where
  UPLOAD_DIR : String
  MAX_FILE_SIZE : Nat
  ALLOWED_EXTENSIONS : List String
  BLOCKED_EXTENSIONS : List String
deriving DecidableEq, Repr

/-- The default `settings` object of app/core/config.py. -/
def settings : Settings :=
  { UPLOAD_DIR := "uploads/"
    MAX_FILE_SIZE := 10 * 1024 * 1024
    ALLOWED_EXTENSIONS :=
      ["pdf", "doc", "docx", "xls", "xlsx", "ppt", "pptx",
       "txt", "csv", "json", "xml",
       "jpg", "jpeg", "png", "gif", "bmp", "webp",
       "mp4", "avi", "mov", "wmv",
       "mp3", "wav", "ogg",
       "zip", "rar", "7z", "tar", "gz"]
    BLOCKED_EXTENSIONS :=
      ["exe", "bat", "cmd", "sh", "ps1", "msi", "app", "deb", "rpm",
       "jar", "vbs", "js", "wsf", "scr", "com", "pif"] }

/-- Python regex `\w` (word character), modelled on the ASCII range:
letters, digits and underscore.  The source's Unicode `\w` additionally
matches non-ASCII word characters (a letter like é is kept by the source
but replaced by this model), so any theorem whose truth depends on this
class restricts its input to ASCII; class-independent statements are
proved for all inputs. -/
def reWordChar (c : Char) : Bool :=
  c.isAlphanum || c = '_'

/-- Python regex `\s` (whitespace), modelled on the ASCII range: space,
tab, newline, carriage return, vertical tab, form feed.  The source's
Unicode `\s` additionally matches non-ASCII whitespace such as NBSP
(kept by the source, replaced by this model), with the same ASCII
scoping of class-dependent theorems as for `reWordChar`. -/
def reSpaceChar (c : Char) : Bool :=
  c = ' ' || c = '\t' || c = '\n' || c = '\r' || c = '\x0b' || c = '\x0c'

/-- Characters kept by the regex `[^\w\s\-\.]` of sanitize_filename
(everything else is replaced by an underscore). -/
def keepChar (c : Char) : Bool :=
  reWordChar c || reSpaceChar c || c = '-' || c = '.'

/-- Python `str.lower`, ASCII range. -/
def pyLower (s : String) : String :=
  String.mk (s.data.map Char.toLower)

/-- Python `str.rfind(c)` restricted to single-character needles, as an
optional index (CPython returns -1 for "not found", see `rfindIdx`). -/
def rfind? (c : Char) : List Char → Option Nat
  | [] => none
  | a :: as =>
    match rfind? c as with
    | some d => some (d + 1)
    | none => if a = c then some 0 else none

/-- Python `str.rfind(c)`: index of the last occurrence, or -1. -/
def rfindIdx (c : Char) (l : List Char) : Int :=
  match rfind? c l with
  | some d => (d : Int)
  | none => -1

/-- posixpath.basename: the suffix after the last `/` (the whole string
when there is no `/`). -/
def basename (l : List Char) : List Char :=
  (l.reverse.takeWhile (fun c => !(c = '/'))).reverse

/-- Python slice `s[:k]` where `k` may be negative (counts from the end). -/
def pySliceTo (s : List Char) (k : Int) : List Char :=
  if 0 ≤ k then s.take k.toNat else s.take ((s.length : Int) + k).toNat

/-- posixpath.splitext (CPython genericpath._splitext with sep `/`,
extsep `.`): splits off the extension at the last dot, unless every
character between the last `/` and that dot is itself a dot (leading
dots of the basename are not extension separators). -/
def splitext (p : List Char) : List Char × List Char :=
  let sepIndex := rfindIdx '/' p
  let dotIndex := rfindIdx '.' p
  if sepIndex < dotIndex then
    let fi := (sepIndex + 1).toNat
    if ((p.drop fi).take (dotIndex.toNat - fi)).any (fun c => !(c = '.')) then
      (p.take dotIndex.toNat, p.drop dotIndex.toNat)
    else (p, [])
  else (p, [])

/-- app/core/validators.py sanitize_filename line 39:
`re.sub(r'[^\w\s\-\.]', '_', filename)`. -/
def reSubSan (l : List Char) : List Char :=
  l.map (fun c => if keepChar c then c else '_')

/-- app/core/validators.py sanitize_filename line 45:
`name.replace('.', '_')` (single-character replace is a character map). -/
def dotCollapse (l : List Char) : List Char :=
  l.map (fun c => if c = '.' then '_' else c)

/-- app/core/validators.py sanitize_filename lines 50-52: truncate to 255
characters, keeping the extension returned by splitext.  Note Python
`name[:255-len(ext)]` takes a possibly negative slice bound. -/
def truncate255 (f : List Char) : List Char :=
  if 255 < f.length then
    let ne := splitext f
    pySliceTo ne.1 (255 - (ne.2.length : Int)) ++ ne.2
  else f

/-- sanitize_filename before the final length truncation (lines 31-46):
basename, then the underscore substitution, then splitext and collapsing
every dot of the name portion.  Split out so theorems can speak about
the extension computed at line 51. -/
def sanitizePre (l : List Char) : List Char :=
  dotCollapse (splitext (reSubSan (basename l))).1 ++
    (splitext (reSubSan (basename l))).2

/-- app/core/validators.py lines 12-54 `sanitize_filename`. -/
def sanitize_filename (raw : String) : String :=
  String.mk (truncate255 (sanitizePre raw.data))

/-- Python `s.rsplit(c, 1)[-1]`: the suffix after the last occurrence of
`c` (the whole string when `c` is absent). -/
def pyRsplitLast (c : Char) (s : String) : String :=
  String.mk ((s.data.reverse.takeWhile (fun a => !(a = c))).reverse)

/-- app/core/validators.py line 68 (also file_service.py line 81):
`filename.rsplit('.', 1)[-1].lower() if '.' in filename else ''`. -/
def extractExt (filename : String) : String :=
  if '.' ∈ filename.data then pyLower (pyRsplitLast '.' filename) else ""

/-- app/core/validators.py lines 56-93 `validate_file_extension`:
no extension, then blocked list, then allowed list, in that order.
The source appends the sorted allow list to the last detail message;
that presentation suffix is omitted here. -/
def validate_file_extension (cfg : Settings) (filename : String) :
    Except HTTPException String :=
  let ext := extractExt filename
  if ext = "" then
    .error { status_code := 400, detail := "File must have an extension" }
  else if ext ∈ cfg.BLOCKED_EXTENSIONS then
    .error { status_code := 400,
             detail := "File type ." ++ ext ++ " is not allowed for security reasons" }
  else if ¬ (ext ∈ cfg.ALLOWED_EXTENSIONS) then
    .error { status_code := 400,
             detail := "File type ." ++ ext ++ " is not allowed" }
  else
    .ok ext

/-- starlette UploadFile, as consumed by the embedded code: the claimed
filename, the byte stream (whose length is what seek/tell measures), and
the client-asserted content type. -/
structure UploadFile where
  filename : Option String
  content : List Nat
  content_type : Option String
deriving DecidableEq, Repr

/-- app/core/validators.py lines 95-118 `validate_file_size`: measures the
stream length via seek/tell and rejects sizes strictly above
MAX_FILE_SIZE with HTTP 413.  The source returns None on success. -/
def validate_file_size (cfg : Settings) (file : UploadFile) :
    Except HTTPException Unit :=
  if cfg.MAX_FILE_SIZE < file.content.length then
    .error { status_code := 413,
             detail := "File size exceeds maximum allowed size" }
  else
    .ok ()

/-- app/models/user.py `User` row.  `last_login` (wall-clock) is not
modelled; `total_storage_used` (a float in the schema) is modelled with
exact integer arithmetic: the embedded runs only ever carry whole byte
counts, and the code under verification never writes a fractional value
to either counter or size. -/
structure UserRow where
  id : Nat
  username : String
  email : String
  password : String
  is_admin : Bool
  total_storage_used : Int
deriving DecidableEq, Repr

/-- app/models/file.py `File` row.  `uploaded_at` (wall-clock) is not
modelled; `size` (a nullable float) is optional, integer-valued here for
the same reason as `total_storage_used`. -/
structure FileRow where
  id : Nat
  saved_name : String
  uploaded_name : String
  owner_id : Nat
  content_type : Option String
  path : String
  size : Option Int
deriving DecidableEq, Repr

/-- app/models/analytics_event.py `AnalyticsEvent` row; the timestamp and
the JSON details payload are not modelled (no claim reads them). -/
structure EventRow where
  user_id : Option Nat
  event_type : String
deriving DecidableEq, Repr

/-- The relational store: the three tables of the data model. -/
structure DB where
  users : List UserRow
  files : List FileRow
  events : List EventRow
deriving DecidableEq, Repr

/-- The upload directory: a finite map from paths to byte contents. -/
abbrev Disk := List (String × List Nat)

/-- os.path.exists on the modelled upload directory. -/
def pathExists (d : Disk) (p : String) : Bool :=
  d.any (fun e => e.1 = p)

/-- `open(path, "wb")` + write: truncates any object already at `path`
and stores the new bytes. -/
def diskWrite (d : Disk) (p : String) (content : List Nat) : Disk :=
  (p, content) :: d.filter (fun e => !(e.1 = p))

/-- os.remove of `p`, as used behind an `os.path.exists` guard or a
swallowed exception: removing an absent object leaves the disk unchanged. -/
def diskRemove (d : Disk) (p : String) : Disk :=
  d.filter (fun e => !(e.1 = p))

/-- posixpath.join for the two-argument uses in the sources: an absolute
second argument wins; otherwise a separator is inserted unless the first
argument is empty or already ends with one. -/
def pyPathJoin (a b : String) : String :=
  if b.data.head? = some '/' then b
  else if a.data.isEmpty || a.data.getLast? = some '/' then a ++ b
  else a ++ "/" ++ b

/-- Attribute names mapped by the declarative `File` model
(app/models/file.py lines 10-22: the columns plus the `owner`
relationship). -/
def fileModelAttrs : List String :=
  ["id", "saved_name", "uploaded_name", "owner_id", "content_type",
   "path", "uploaded_at", "size", "owner"]

/-- Keyword names that file_service.py lines 135-140 passes to the `File`
constructor: `File(name=..., owner_id=..., content_type=..., path=...)`. -/
def fileCtorKwargNames : List String :=
  ["name", "owner_id", "content_type", "path"]

/-- SQLAlchemy primary keys autoincrement from 1. -/
def nextFileId (db : DB) : Nat :=
  (db.files.map (fun f => f.id)).foldr max 0 + 1

def nextUserId (db : DB) : Nat :=
  (db.users.map (fun u => u.id)).foldr max 0 + 1

/-- Whether the I/O of `open` + `shutil.copyfileobj` at file_service.py
lines 110-111 completes, fails after writing a partial object, or fails
before any object is created. -/
inductive WriteOutcome where
  | ok : WriteOutcome
  | midFail (written : List Nat) : WriteOutcome
  | openFail : WriteOutcome
deriving DecidableEq, Repr

deriving instance DecidableEq for Except

/-- Result of a run of save_upload: final database and disk states, the
paths written to disk at any point during the run (before any cleanup),
and the returned row or raised HTTPException. -/
structure UploadOutcome where
  db : DB
  disk : Disk
  wrote : List String
  result : Except HTTPException FileRow
deriving DecidableEq, Repr

/-- app/services/file_service.py lines 26-174 `save_upload`.

The validation calls of steps 2-4 (validate_file_size, sanitize_filename,
validate_file_extension) and of steps 7-8 (content signature, antivirus)
are commented out in the source; the original filename is used and the
extension is extracted with the line-81 fallback to "bin".  Step 9 calls
`File(name=safe_filename, owner_id=..., content_type=..., path=...)`;
`name` is not among `fileModelAttrs`, so the declarative constructor
raises TypeError, which the `except Exception` handler (lines 161-174)
turns into rollback + disk cleanup + HTTP 500.  (Were the keywords all
mapped, the branch below would commit a row; even then the INSERT would
violate the NOT NULL constraint on the never-assigned `saved_name`.)
`uuidName` stands for the fresh `uuid.uuid4()` of line 91 and `write` for
the nondeterministic outcome of the disk I/O of lines 110-111. -/
def save_upload (cfg : Settings) (db : DB) (disk : Disk)
    (upload_file : UploadFile) (owner_id : Nat) (uuidName : String)
    (write : WriteOutcome) : UploadOutcome :=
  match upload_file.filename with
  | none =>
    { db := db, disk := disk, wrote := [],
      result := .error { status_code := 400, detail := "Filename is required" } }
  | some fn =>
    if fn = "" then
      { db := db, disk := disk, wrote := [],
        result := .error { status_code := 400, detail := "Filename is required" } }
    else
      let safe_filename := fn
      let ext := if '.' ∈ safe_filename.data
                 then pyLower (pyRsplitLast '.' safe_filename) else "bin"
      let saved_name := uuidName ++ "." ++ ext
      let file_path := pyPathJoin cfg.UPLOAD_DIR saved_name
      match write with
      | .openFail =>
        -- open() raised before creating the object: generic handler rolls
        -- back and runs the exists-guarded remove (a no-op here unless a
        -- stale object already sat at file_path), then raises 500.
        { db := db, disk := diskRemove disk file_path, wrote := [],
          result := .error { status_code := 500, detail := "Error saving file" } }
      | .midFail written =>
        let disk1 := diskWrite disk file_path written
        { db := db, disk := diskRemove disk1 file_path, wrote := [file_path],
          result := .error { status_code := 500, detail := "Error saving file" } }
      | .ok =>
        let disk1 := diskWrite disk file_path upload_file.content
        if fileCtorKwargNames.all (fun k => k ∈ fileModelAttrs) then
          -- Not reached: "name" is not a mapped attribute.
          let row : FileRow :=
            { id := nextFileId db, saved_name := saved_name,
              uploaded_name := safe_filename, owner_id := owner_id,
              content_type := upload_file.content_type, path := file_path,
              size := none }
          { db := { db with files := db.files ++ [row] }, disk := disk1,
            wrote := [file_path], result := .ok row }
        else
          { db := db, disk := diskRemove disk1 file_path, wrote := [file_path],
            result := .error { status_code := 500, detail := "Error saving file" } }

/-- starlette FileResponse as constructed at file_router.py lines 112-116. -/
structure FileResponse where
  path : String
  filename : String
  media_type : Option String
deriving DecidableEq, Repr

/-- app/routers/file_router.py lines 56-116 `download`.

The ownership check of lines 96-100 is commented out in the source.  The
response construction at line 114 reads `db_file.name`, but `name` is not
an attribute of the `File` model (`fileModelAttrs`), so every reachable
success path raises AttributeError, surfaced by the framework as HTTP 500. -/
def download (db : DB) (disk : Disk) (file_id : Nat) (owner_id : Nat) :
    Except HTTPException FileResponse :=
  match db.files.find? (fun f => f.id = file_id) with
  | none => .error { status_code := 404, detail := "File not found" }
  | some db_file =>
    if ¬ (pathExists disk db_file.path = true) then
      .error { status_code := 404, detail := "File not found on disk" }
    else
      if "name" ∈ fileModelAttrs then
        .ok { path := db_file.path, filename := db_file.uploaded_name,
              media_type := db_file.content_type }
      else
        .error { status_code := 500,
                 detail := "AttributeError: File object has no attribute name" }

/-- Result of a run of delete_file: final states plus the outcome. -/
structure DeleteOutcome where
  db : DB
  disk : Disk
  result : Except HTTPException Unit
deriving DecidableEq, Repr

/-- app/services/file_service.py lines 176-254 `delete_file`: load the row
(404 if absent), best-effort disk removal (exceptions swallowed), delete
the row, commit.  The ownership check of lines 221-225 is commented out
in the source; no storage decrement and no analytics event are performed. -/
def delete_file (db : DB) (disk : Disk) (file_id : Nat) (owner_id : Nat) :
    DeleteOutcome :=
  match db.files.find? (fun f => f.id = file_id) with
  | none =>
    { db := db, disk := disk,
      result := .error { status_code := 404, detail := "File not found" } }
  | some db_file =>
    { db := { db with files := db.files.eraseP (fun f => f.id = file_id) }
      disk := diskRemove disk db_file.path
      result := .ok () }

/-- app/routers/file_router.py lines 155-191 `delete_file_endpoint`: the
call to the service delete_file is commented out at line 190, so the
endpoint returns 204 No Content without touching any state. -/
def delete_file_endpoint (db : DB) (disk : Disk) (file_id : Nat)
    (owner_id : Nat) : DeleteOutcome :=
  { db := db, disk := disk, result := .ok () }

/-- Storage counter of a user (0 when the user row is absent). -/
def storageOf (db : DB) (uid : Nat) : Int :=
  match db.users.find? (fun u => u.id = uid) with
  | some u => u.total_storage_used
  | none => 0

/-- Sum of the recorded sizes of a user's currently-existing File rows
(a NULL size counts as 0). -/
def sumSizes (db : DB) (uid : Nat) : Int :=
  ((db.files.filter (fun f => f.owner_id = uid)).map
    (fun f => f.size.getD 0)).foldr (fun a b => a + b) 0

/-- The accounting-conservation invariant of the specification. -/
def conservation (db : DB) (uid : Nat) : Prop :=
  storageOf db uid = sumSizes db uid

instance (db : DB) (uid : Nat) : Decidable (conservation db uid) :=
  inferInstanceAs (Decidable (storageOf db uid = sumSizes db uid))

/-- Case-insensitive character comparison (re.IGNORECASE, ASCII range). -/
def ciEq (a b : Char) : Bool :=
  a.toLower = b.toLower

/-- Case-insensitive prefix match returning the unmatched remainder. -/
def ciStrip : List Char → List Char → Option (List Char)
  | [], s => some s
  | _ :: _, [] => none
  | k :: ks, c :: cs => if ciEq k c then ciStrip ks cs else none

/-- Substring search (the unanchored alternatives of SQLI_PATTERN). -/
def hasSubstr (needle : List Char) : List Char → Bool
  | [] => needle.isEmpty
  | c :: cs => needle.isPrefixOf (c :: cs) || hasSubstr needle cs

/-- Regex `\b` immediately before a word character: start of string or a
preceding non-word character. -/
def boundaryB : Option Char → Bool
  | none => true
  | some p => !(reWordChar p)

/-- Search for `\bKW\b` case-insensitively, scanning with the previous
character to decide the left boundary. -/
def kwSearch (kw : List Char) : Option Char → List Char → Bool
  | _, [] => false
  | prev, c :: cs =>
    (match ciStrip kw (c :: cs) with
     | some rest =>
       boundaryB prev &&
       (match rest with
        | [] => true
        | r :: _ => !(reWordChar r))
     | none => false)
    || kwSearch kw (some c) cs

/-- After a leading `1`, match the rest of `\b1\s*=\s*1\b`. -/
def tautTail (s : List Char) : Bool :=
  match s.dropWhile reSpaceChar with
  | '=' :: s2 =>
    (match s2.dropWhile reSpaceChar with
     | '1' :: rest =>
       (match rest with
        | [] => true
        | r :: _ => !(reWordChar r))
     | _ => false)
  | _ => false

/-- Search for the tautology alternative `\b1\s*=\s*1\b`. -/
def tautSearch : Option Char → List Char → Bool
  | _, [] => false
  | prev, c :: cs => (c = '1' && boundaryB prev && tautTail cs) || tautSearch (some c) cs

/-- The keyword alternatives of SQLI_PATTERN (app/core/security.py
lines 66-76). -/
def SQLI_KEYWORDS : List (List Char) :=
  [String.data "OR", String.data "AND", String.data "UNION",
   String.data "SELECT", String.data "INSERT", String.data "DELETE",
   String.data "UPDATE", String.data "DROP", String.data "EXEC",
   String.data "CAST"]

/-- An apostrophe (written by code point to keep the file ASCII-plain). -/
def apos : Char := Char.ofNat 39

/-- `SQLI_PATTERN.search(value)` of app/core/security.py lines 66-81:
SQL comment markers, word-bounded keywords, apostrophe-semicolon, or a
`1=1` tautology, case-insensitively. -/
def sqliMatch (s : String) : Bool :=
  let l := s.data
  hasSubstr (String.data "--") l ||
  hasSubstr (String.data "#") l ||
  hasSubstr (String.data "/*") l ||
  SQLI_KEYWORDS.any (fun kw => kwSearch kw none l) ||
  hasSubstr [apos, ';'] l ||
  tautSearch none l

/-- app/core/security.py lines 63-84 `reject_sql_injection`: raises a
plain ValueError (modelled as the error branch) when the pattern matches,
otherwise returns the value unchanged. -/
def reject_sql_injection (value : String) : Except String String :=
  if sqliMatch value then .error "Potential SQL injection detected"
  else .ok value

/-- app/core/security.py lines 14-18 `hash_password`: the opaque bcrypt
primitive (spec section 6) modelled as a deterministic injective stand-in;
the 72-byte truncation of the source is kept, the random salt is not
modelled. -/
def hash_password (password : String) : String :=
  "$2b$" ++ String.mk (password.data.take 72)

/-- app/core/security.py lines 20-22 `verify_password`, consistent with
the `hash_password` stand-in. -/
def verify_password (plain_password : String) (hashed_password : String) : Bool :=
  hashed_password = hash_password plain_password

/-- app/schemas/user.py `UserCreate`. -/
structure UserCreate where
  username : String
  email : String
  password : String
deriving DecidableEq, Repr

/-- app/schemas/user.py `UserLogin`. -/
structure UserLogin where
  email : String
  password : String
deriving DecidableEq, Repr

/-- Errors raised by the auth service: typed HTTPExceptions or the plain
ValueError of reject_sql_injection. -/
inductive AppError where
  | http (e : HTTPException) : AppError
  | valueError (msg : String) : AppError
deriving DecidableEq, Repr

/-- app/services/auth_service.py lines 33-73 `create_user`: normalize the
email, reject duplicate email or username (400), reject an empty password
(422), hash the password, then run reject_sql_injection on the username
and the email (the password is never checked), then insert and commit.
The JWT token and the JSONResponse wrapper are not modelled; the new row
is returned. -/
def create_user (db : DB) (user : UserCreate) (isAdmin : Bool) :
    Except AppError (DB × UserRow) :=
  let normalized_email := pyLower user.email
  if db.users.any (fun u => u.email = normalized_email) ||
     db.users.any (fun u => u.username = user.username) then
    .error (.http { status_code := 400, detail := "Email already registered" })
  else if user.password = "" then
    .error (.http { status_code := 422, detail := "no Password was Entered" })
  else
    let hashed_password := hash_password user.password
    match reject_sql_injection user.username with
    | .error m => .error (.valueError m)
    | .ok _ =>
      match reject_sql_injection user.email with
      | .error m => .error (.valueError m)
      | .ok _ =>
        let db_user : UserRow :=
          { id := nextUserId db, username := user.username,
            email := normalized_email, password := hashed_password,
            is_admin := isAdmin, total_storage_used := 0 }
        .ok ({ db with users := db.users ++ [db_user] }, db_user)

/-- app/services/auth_service.py lines 75-104 `authenticate_user`: run
reject_sql_injection on the email and the password, look the user up by
exact (non-normalized) email, answer 401 on a missing user or a failed
password check, then log the `user_login` analytics event of
`update_last_login` (lines 17-31) and return.  Token and timestamp are
not modelled. -/
def authenticate_user (db : DB) (user : UserLogin) :
    Except AppError (DB × UserRow) :=
  match reject_sql_injection user.email with
  | .error m => .error (.valueError m)
  | .ok _ =>
    match reject_sql_injection user.password with
    | .error m => .error (.valueError m)
    | .ok _ =>
      match db.users.find? (fun u => u.email = user.email) with
      | none =>
        .error (.http { status_code := 401, detail := "Invalid email or password" })
      | some db_user =>
        if ¬ (verify_password user.password db_user.password = true) then
          .error (.http { status_code := 401, detail := "Invalid email or password" })
        else
          let ev : EventRow := { user_id := some db_user.id, event_type := "user_login" }
          .ok ({ db with events := db.events ++ [ev] }, db_user)

/-- True exactly on the error branch of an Except. -/
def exceptIsErr {ε α : Type} : Except ε α → Bool
  | .error _ => true
  | .ok _ => false

/-- An empty database. -/
def emptyDB : DB := { users := [], files := [], events := [] }

/-- Test fixture: a file owned by user 2, requested by user 1 (C1). -/
def fileB : FileRow :=
  { id := 1, saved_name := "s.txt", uploaded_name := "secret.txt",
    owner_id := 2, content_type := some "text/plain",
    path := "uploads/s.txt", size := some 17 }

def userA : UserRow :=
  { id := 1, username := "alice", email := "alice@x.com",
    password := "h1", is_admin := false, total_storage_used := 0 }

def userB : UserRow :=
  { id := 2, username := "bob", email := "bob@x.com",
    password := "h2", is_admin := false, total_storage_used := 17 }

def dbAB : DB := { users := [userA, userB], files := [fileB], events := [] }

def diskAB : Disk := [("uploads/s.txt", [0])]

/-- Test fixture: user 1 owning one 100-byte file, with a consistent
storage counter (C2, C4). -/
def file1 : FileRow :=
  { id := 1, saved_name := "f1.pdf", uploaded_name := "orig.pdf",
    owner_id := 1, content_type := some "application/pdf",
    path := "uploads/f1.pdf", size := some 100 }

def user1 : UserRow :=
  { id := 1, username := "carol", email := "carol@x.com",
    password := "h3", is_admin := false, total_storage_used := 100 }

def db1 : DB := { users := [user1], files := [file1], events := [] }

def disk1 : Disk := [("uploads/f1.pdf", [7])]

/-- Test fixture: user 1 with no files yet (C3). -/
def user1zero : UserRow :=
  { id := 1, username := "carol", email := "carol@x.com",
    password := "h3", is_admin := false, total_storage_used := 0 }

def db1zero : DB := { users := [user1zero], files := [], events := [] }

/-- The happy-path upload of the specification scenario: report.pdf,
2048 bytes, as user 1 (C3). -/
def pdfUpload : UploadFile :=
  { filename := some "report.pdf", content := List.replicate 2048 0,
    content_type := some "application/pdf" }

/-- An upload of MAX_FILE_SIZE + 1000 bytes (C5). -/
def largeUpload : UploadFile :=
  { filename := some "large.pdf",
    content := List.replicate (10 * 1024 * 1024 + 1000) 0,
    content_type := some "application/pdf" }

/-- A blocked-extension upload (C6). -/
def exeUpload : UploadFile :=
  { filename := some "malware.exe", content := [77, 90, 0],
    content_type := some "application/octet-stream" }

/-- A configuration with "pdf" both blocked and allowed, to observe which
list validate_file_extension consults first (C6). -/
def cfgBoth : Settings :=
  { UPLOAD_DIR := "uploads/", MAX_FILE_SIZE := 10 * 1024 * 1024,
    ALLOWED_EXTENSIONS := ["pdf"], BLOCKED_EXTENSIONS := ["pdf"] }

/-- The 302-character filename whose sanitized form keeps a
301-character extension (C8, C9). -/
def longDotName : String :=
  String.mk ('x' :: '.' :: List.replicate 300 'a')

end FUS

namespace FUS

/-- Claim C1: the spec says a user can never successfully download or
delete another user's file (always Forbidden).  In the code both
ownership checks are commented out: user 1 deleting user 2's file
silently succeeds and removes the row, and user 1 downloading user 2's
file is never answered with 403 (the reachable path raises the
`db_file.name` AttributeError, a 500). -/
theorem c1_ownership_not_enforced :
    (¬ (fileB.owner_id = 1)) ∧
    (delete_file dbAB diskAB 1 1).result = .ok () ∧
    (delete_file dbAB diskAB 1 1).db.files = [] ∧
    download dbAB diskAB 1 1 =
      .error { status_code := 500,
               detail := "AttributeError: File object has no attribute name" } := by
  decide

/-- Claim C2: the spec says total_storage_used always equals the sum of
the user's existing file sizes, maintained atomically by upload together
with a file_upload event.  In the code delete_file removes the row
without decrementing the counter (breaking conservation from a
conserving state), and save_upload never touches the counter or the
event log — it always fails with a 500 before committing anything. -/
theorem c2_accounting_not_maintained :
    conservation db1 1 ∧
    (delete_file db1 disk1 1 1).result = .ok () ∧
    (¬ conservation (delete_file db1 disk1 1 1).db 1) ∧
    (save_upload settings db1 disk1 pdfUpload 1 "u1" .ok).db = db1 ∧
    (save_upload settings db1 disk1 pdfUpload 1 "u1" .ok).result =
      .error { status_code := 500, detail := "Error saving file" } := by
  decide

/-- Claim C3: the spec scenario uploads report.pdf (2048 bytes) as
user 1 and expects a committed File row, an increased counter and one
file_upload event.  In the code the upload raises HTTP 500 (the File
constructor is passed the unmapped keyword `name`) and leaves database
and disk exactly as they were. -/
theorem c3_happy_path_upload_fails :
    (save_upload settings db1zero [] pdfUpload 1 "u1" .ok).result =
      .error { status_code := 500, detail := "Error saving file" } ∧
    (save_upload settings db1zero [] pdfUpload 1 "u1" .ok).db = db1zero ∧
    (save_upload settings db1zero [] pdfUpload 1 "u1" .ok).disk = [] := by
  decide

/-- Claim C4: the spec delete pipeline removes the row, decrements the
owner's storage, appends a file_deleted event, tolerates a missing disk
object, and 404s on a second delete.  In the code the service removes
the row, tolerates the missing disk object and 404s on re-delete, but
never decrements storage and never logs an event; and the HTTP endpoint
does not even call the service, so over HTTP nothing is deleted and the
second call returns 204, not 404. -/
theorem c4_delete_pipeline_divergences :
    (delete_file db1 disk1 1 1).result = .ok () ∧
    (delete_file db1 disk1 1 1).db.files = [] ∧
    storageOf (delete_file db1 disk1 1 1).db 1 = 100 ∧
    (delete_file db1 disk1 1 1).db.events = [] ∧
    (delete_file (delete_file db1 disk1 1 1).db
        (delete_file db1 disk1 1 1).disk 1 1).result =
      .error { status_code := 404, detail := "File not found" } ∧
    (delete_file db1 [] 1 1).result = .ok () ∧
    delete_file_endpoint db1 disk1 1 1 =
      { db := db1, disk := disk1, result := .ok () } ∧
    (delete_file_endpoint (delete_file_endpoint db1 disk1 1 1).db
        (delete_file_endpoint db1 disk1 1 1).disk 1 1).result = .ok () := by
  decide

/-- Claim C5: the spec says a payload of exactly MAX_FILE_SIZE passes the
size gate and one byte more fails with 413, and that an upload of
MAX_FILE_SIZE + 1000 bytes is rejected with no File row and no disk
growth.  The gate itself behaves exactly so, but save_upload never calls
it: the oversized upload is written to disk (transient growth, cleaned
up only by the unrelated 500 failure) and the failure is a 500, not a
413. -/
theorem c5_size_gate_not_wired :
    validate_file_size settings
      { filename := some "exact.bin",
        content := List.replicate (10 * 1024 * 1024) 0,
        content_type := none } = .ok () ∧
    validate_file_size settings
      { filename := some "over.bin",
        content := List.replicate (10 * 1024 * 1024 + 1) 0,
        content_type := none } =
      .error { status_code := 413,
               detail := "File size exceeds maximum allowed size" } ∧
    (save_upload settings emptyDB [] largeUpload 1 "u9" .ok).wrote =
      ["uploads/u9.pdf"] ∧
    (save_upload settings emptyDB [] largeUpload 1 "u9" .ok).result =
      .error { status_code := 500, detail := "Error saving file" } ∧
    (save_upload settings emptyDB [] largeUpload 1 "u9" .ok).db = emptyDB := by
  refine ⟨?_, ?_, ?_, ?_, ?_⟩
  · unfold validate_file_size
    rw [List.length_replicate]
    norm_num [settings]
  · unfold validate_file_size
    rw [List.length_replicate]
    norm_num [settings]
  · decide
  · decide
  · decide

/-- Claim C6: validate_file_extension classifies every filename into
exactly one of no-extension, blocked, unrecognized and allowed, consulting
the blocked list before the allowed list (an extension in both lists is
rejected as blocked).  That part holds of the gate.  But the pipeline
part fails: save_upload never calls the gate, and a blocked .exe upload
is written to the content store (the run then fails with an unrelated
500, whose cleanup removes it again). -/
theorem c6_extension_gate :
    (∀ (cfg : Settings) (fn : String),
      (extractExt fn = "" ∧
        validate_file_extension cfg fn =
          .error { status_code := 400, detail := "File must have an extension" }) ∨
      ((¬ extractExt fn = "") ∧ extractExt fn ∈ cfg.BLOCKED_EXTENSIONS ∧
        validate_file_extension cfg fn =
          .error { status_code := 400,
                   detail := "File type ." ++ extractExt fn ++
                     " is not allowed for security reasons" }) ∨
      ((¬ extractExt fn = "") ∧ (¬ extractExt fn ∈ cfg.BLOCKED_EXTENSIONS) ∧
        (¬ extractExt fn ∈ cfg.ALLOWED_EXTENSIONS) ∧
        validate_file_extension cfg fn =
          .error { status_code := 400,
                   detail := "File type ." ++ extractExt fn ++ " is not allowed" }) ∨
      ((¬ extractExt fn = "") ∧ (¬ extractExt fn ∈ cfg.BLOCKED_EXTENSIONS) ∧
        extractExt fn ∈ cfg.ALLOWED_EXTENSIONS ∧
        validate_file_extension cfg fn = .ok (extractExt fn))) ∧
    validate_file_extension cfgBoth "a.pdf" =
      .error { status_code := 400,
               detail := "File type .pdf is not allowed for security reasons" } ∧
    validate_file_extension settings "malware.exe" =
      .error { status_code := 400,
               detail := "File type .exe is not allowed for security reasons" } ∧
    (save_upload settings emptyDB [] exeUpload 7 "u123" .ok).wrote =
      ["uploads/u123.exe"] ∧
    (save_upload settings emptyDB [] exeUpload 7 "u123" .ok).result =
      .error { status_code := 500, detail := "Error saving file" } := by
  refine ⟨?_, by decide, by decide, by decide, by decide⟩
  intro cfg fn
  by_cases h1 : extractExt fn = ""
  · exact Or.inl ⟨h1, by simp [validate_file_extension, h1]⟩
  · by_cases h2 : extractExt fn ∈ cfg.BLOCKED_EXTENSIONS
    · exact Or.inr (Or.inl ⟨h1, h2, by simp [validate_file_extension, h1, h2]⟩)
    · by_cases h3 : extractExt fn ∈ cfg.ALLOWED_EXTENSIONS
      · exact Or.inr (Or.inr (Or.inr
          ⟨h1, h2, h3, by simp [validate_file_extension, h1, h2, h3]⟩))
      · exact Or.inr (Or.inr (Or.inl
          ⟨h1, h2, h3, by simp [validate_file_extension, h1, h2, h3]⟩))

theorem pathExists_diskRemove_self (d : Disk) (p : String) :
    pathExists (diskRemove d p) p = false := by
  induction d with
  | nil => rfl
  | cons e d ih =>
    by_cases h : e.1 = p
    · simp only [diskRemove, List.filter, h] at ih ⊢
      simp [ih]
    · simp only [diskRemove, List.filter, pathExists, h] at ih ⊢
      simp [h, ih]

/-- Claim C7: any failure raised inside save_upload after the disk write
has begun triggers disk cleanup and a transaction rollback before the
error propagates.  In the embedding this holds unconditionally: every
run fails (the File constructor is passed the unmapped keyword `name`),
the database is always returned unchanged, and every path written during
the run has been removed from the final disk state. -/
theorem c7_failure_cleanup (cfg : Settings) (db : DB) (disk : Disk)
    (upload_file : UploadFile) (owner_id : Nat) (uuidName : String)
    (write : WriteOutcome) :
    exceptIsErr (save_upload cfg db disk upload_file owner_id uuidName write).result
      = true ∧
    (save_upload cfg db disk upload_file owner_id uuidName write).db = db ∧
    ∀ p ∈ (save_upload cfg db disk upload_file owner_id uuidName write).wrote,
      pathExists (save_upload cfg db disk upload_file owner_id uuidName write).disk p
        = false := by
  have hctor : (fileCtorKwargNames.all fun k => decide (k ∈ fileModelAttrs)) = false := by
    decide
  obtain ⟨fname, content, ctype⟩ := upload_file
  cases fname with
  | none => exact ⟨rfl, rfl, by intro p hp; cases hp⟩
  | some fn =>
    by_cases hfn : fn = ""
    · simp [save_upload, hfn, exceptIsErr]
    · cases write with
      | openFail => simp [save_upload, hfn, exceptIsErr]
      | midFail written =>
        simp [save_upload, hfn, exceptIsErr, pathExists_diskRemove_self]
      | ok =>
        simp [save_upload, hfn, hctor, exceptIsErr, pathExists_diskRemove_self]

theorem c7_failure_cleanup_witness :
    exceptIsErr (save_upload settings db1zero [] pdfUpload 1 "w7" .ok).result
      = true ∧
    (save_upload settings db1zero [] pdfUpload 1 "w7" .ok).db = db1zero ∧
    ∀ p ∈ (save_upload settings db1zero [] pdfUpload 1 "w7" .ok).wrote,
      pathExists (save_upload settings db1zero [] pdfUpload 1 "w7" .ok).disk p
        = false :=
  c7_failure_cleanup settings db1zero [] pdfUpload 1 "w7" .ok

/-- Claim C10 counterexample: the claim says a signup whose password
matches the SQL pattern always fails with ValueError, but create_user
runs reject_sql_injection only on the username and the email — a signup
with the matching password "1=1" succeeds and commits the user. -/
theorem c10_password_not_checked_at_signup :
    sqliMatch "1=1" = true ∧
    create_user emptyDB
        { username := "alice", email := "a@b.com", password := "1=1" } false =
      .ok ({ users := [{ id := 1, username := "alice", email := "a@b.com",
                         password := "$2b$1=1", is_admin := false,
                         total_storage_used := 0 }],
             files := [], events := [] },
           { id := 1, username := "alice", email := "a@b.com",
             password := "$2b$1=1", is_admin := false,
             total_storage_used := 0 }) := by
  decide

/-- Claim C10 (amended): create_user raises the plain ValueError when the
username or the email matches the SQL pattern (provided the request gets
past the duplicate-identity and empty-password checks, which run first),
and authenticate_user raises it whenever the email or the password
matches; the password is never checked at signup. -/
theorem c10_injection_checks_amended :
    (∀ (db : DB) (user : UserCreate) (isAdmin : Bool),
      (db.users.any fun u => u.email = pyLower user.email) = false →
      (db.users.any fun u => u.username = user.username) = false →
      (¬ user.password = "") →
      (sqliMatch user.username || sqliMatch user.email) = true →
      create_user db user isAdmin =
        .error (.valueError "Potential SQL injection detected")) ∧
    (∀ (db : DB) (user : UserLogin),
      (sqliMatch user.email || sqliMatch user.password) = true →
      authenticate_user db user =
        .error (.valueError "Potential SQL injection detected")) := by
  constructor
  · intro db user isAdmin h1 h2 h3 hm
    unfold create_user
    simp only [h1, h2, Bool.or_self, Bool.false_eq_true, if_false, if_neg h3]
    unfold reject_sql_injection
    cases hu : sqliMatch user.username with
    | true => simp
    | false =>
      rw [hu, Bool.false_or] at hm
      simp [hm]
  · intro db user hm
    unfold authenticate_user reject_sql_injection
    cases he : sqliMatch user.email with
    | true => simp
    | false =>
      rw [he, Bool.false_or] at hm
      simp [hm]

theorem c10_injection_checks_amended_witness :
    create_user emptyDB
        { username := "drop", email := "d@x.com", password := "pw" } false =
      .error (.valueError "Potential SQL injection detected") ∧
    authenticate_user emptyDB { email := "a@b.com", password := "1=1" } =
      .error (.valueError "Potential SQL injection detected") :=
  ⟨c10_injection_checks_amended.1 emptyDB
      { username := "drop", email := "d@x.com", password := "pw" } false
      (by decide) (by decide) (by decide) (by decide),
   c10_injection_checks_amended.2 emptyDB
      { email := "a@b.com", password := "1=1" } (by decide)⟩

theorem rfind?_eq_none (c : Char) (l : List Char) :
    rfind? c l = none ↔ c ∉ l := by
  induction l with
  | nil => simp [rfind?]
  | cons a as ih =>
    rw [rfind?]
    cases h : rfind? c as with
    | some d =>
      have hmem : c ∈ as := by
        by_contra hc
        rw [ih.mpr hc] at h
        cases h
      simp [hmem]
    | none =>
      have has : c ∉ as := ih.mp h
      by_cases hac : a = c
      · simp [hac]
      · have hca : ¬ c = a := fun hca => hac hca.symm
        simp [hac, has, hca]

theorem rfind?_spec (c : Char) (l : List Char) (d : Nat)
    (h : rfind? c l = some d) :
    l.drop d = c :: l.drop (d + 1) ∧ c ∉ l.drop (d + 1) ∧ d < l.length := by
  induction l generalizing d with
  | nil => simp [rfind?] at h
  | cons a as ih =>
    rw [rfind?] at h
    cases h2 : rfind? c as with
    | some d2 =>
      rw [h2] at h
      have hd : d2 + 1 = d := by injection h
      subst hd
      obtain ⟨e1, e2, e3⟩ := ih d2 h2
      refine ⟨?_, ?_, ?_⟩
      · simpa [List.drop_succ_cons] using e1
      · simpa [List.drop_succ_cons] using e2
      · simpa using Nat.succ_lt_succ e3
    | none =>
      rw [h2] at h
      by_cases hac : a = c
      · rw [if_pos hac] at h
        have hd : 0 = d := by injection h
        subst hd
        exact ⟨by simp [hac], by simpa using (rfind?_eq_none c as).mp h2, by simp⟩
      · rw [if_neg hac] at h
        cases h

theorem rfind?_append (c : Char) (xs ys : List Char) (h : c ∉ ys) :
    rfind? c (xs ++ c :: ys) = some xs.length := by
  induction xs with
  | nil =>
    rw [List.nil_append, rfind?, (rfind?_eq_none c ys).mpr h]
    simp
  | cons x xs ih =>
    rw [List.cons_append, rfind?, ih]
    simp

theorem rfindIdx_of_not_mem (c : Char) (l : List Char) (h : c ∉ l) :
    rfindIdx c l = -1 := by
  rw [rfindIdx, (rfind?_eq_none c l).mpr h]

theorem splitext_no_dot (p : List Char) (hs : '/' ∉ p) (hd : '.' ∉ p) :
    splitext p = (p, []) := by
  simp only [splitext]
  rw [rfindIdx_of_not_mem _ _ hs, rfindIdx_of_not_mem _ _ hd]
  norm_num

theorem splitext_append (p : List Char) (hs : '/' ∉ p) :
    (splitext p).1 ++ (splitext p).2 = p := by
  simp only [splitext]
  rw [rfindIdx_of_not_mem _ _ hs]
  cases h : rfind? '.' p with
  | none =>
    rw [show rfindIdx '.' p = -1 from by rw [rfindIdx, h]]
    norm_num
  | some d =>
    rw [show rfindIdx '.' p = (d : Int) from by rw [rfindIdx, h]]
    rw [if_pos (by omega : (-1 : Int) < (d : Int))]
    split
    · simp [List.take_append_drop]
    · simp

theorem splitext_shape (p : List Char) (hs : '/' ∉ p) :
    (splitext p).2 = [] ∨
    ∃ t, (splitext p).2 = '.' :: t ∧ '.' ∉ t ∧ (splitext p).1 ≠ [] := by
  simp only [splitext]
  rw [rfindIdx_of_not_mem _ _ hs]
  cases h : rfind? '.' p with
  | none =>
    rw [show rfindIdx '.' p = -1 from by rw [rfindIdx, h]]
    norm_num
  | some d =>
    rw [show rfindIdx '.' p = (d : Int) from by rw [rfindIdx, h]]
    rw [if_pos (by omega : (-1 : Int) < (d : Int))]
    obtain ⟨e1, e2, e3⟩ := rfind?_spec '.' p d h
    have htn : ((d : Int)).toNat = d := Int.toNat_natCast d
    have hfi : (((-1 : Int)) + 1).toNat = 0 := by norm_num
    split
    case isTrue hany =>
      right
      refine ⟨p.drop (d + 1), ?_, e2, ?_⟩
      · simpa [htn] using e1
      · rw [hfi, htn] at hany
        simp only [List.drop_zero, Nat.sub_zero] at hany
        obtain ⟨x, hx, _⟩ := List.any_eq_true.mp hany
        intro hnil
        rw [htn] at hnil
        simp only at hnil
        rw [hnil] at hx
        cases hx
    case isFalse _ =>
      left
      rfl

theorem splitext_of_parts (n t : List Char) (hs1 : '/' ∉ n) (hs2 : '/' ∉ t)
    (hd : '.' ∉ n) (hne : n ≠ []) (ht : '.' ∉ t) :
    splitext (n ++ '.' :: t) = (n, '.' :: t) := by
  have hslash : '/' ∉ n ++ '.' :: t := by
    simp only [List.mem_append, List.mem_cons]
    push_neg
    exact ⟨hs1, by decide, hs2⟩
  simp only [splitext]
  rw [rfindIdx_of_not_mem _ _ hslash,
    show rfindIdx '.' (n ++ '.' :: t) = (n.length : Int) from by
      rw [rfindIdx, rfind?_append _ _ _ ht]]
  rw [if_pos (by omega : (-1 : Int) < (n.length : Int))]
  have htn : ((n.length : Int)).toNat = n.length := Int.toNat_natCast _
  have hfi : (((-1 : Int)) + 1).toNat = 0 := by norm_num
  rw [hfi, htn]
  simp only [List.drop_zero, Nat.sub_zero]
  rw [if_pos ?hany]
  case hany =>
    obtain ⟨x, hx⟩ := List.exists_mem_of_ne_nil n hne
    refine List.any_eq_true.mpr ⟨x, ?_, ?_⟩
    · rw [List.take_left]
      exact hx
    · have : ¬ x = '.' := fun he => hd (he ▸ hx)
      simpa using this
  rw [List.take_left, List.drop_left]

theorem mem_reSubSan_keep (l : List Char) :
    ∀ c ∈ reSubSan l, keepChar c = true := by
  intro c hc
  rw [reSubSan] at hc
  obtain ⟨a, _, rfl⟩ := List.mem_map.mp hc
  by_cases h : keepChar a = true
  · rw [if_pos h]; exact h
  · rw [if_neg h]; decide

theorem reSubSan_eq_self (l : List Char) (h : ∀ c ∈ l, keepChar c = true) :
    reSubSan l = l := by
  induction l with
  | nil => rfl
  | cons a as ih =>
    rw [reSubSan, List.map_cons, if_pos (h a (by simp))]
    rw [reSubSan] at ih
    rw [ih (fun c hc => h c (by simp [hc]))]

theorem reSubSan_length (l : List Char) : (reSubSan l).length = l.length :=
  List.length_map l _

theorem dotCollapse_no_dot (l : List Char) : '.' ∉ dotCollapse l := by
  intro hc
  rw [dotCollapse] at hc
  obtain ⟨a, _, he⟩ := List.mem_map.mp hc
  by_cases h : a = '.'
  · rw [if_pos h] at he; cases he
  · rw [if_neg h] at he; exact h he

theorem dotCollapse_eq_self (l : List Char) (h : '.' ∉ l) :
    dotCollapse l = l := by
  induction l with
  | nil => rfl
  | cons a as ih =>
    rw [dotCollapse, List.map_cons,
      if_neg (fun he : a = '.' => h (by simp [he]))]
    rw [dotCollapse] at ih
    rw [ih (fun hc => h (by simp [hc]))]

theorem dotCollapse_length (l : List Char) :
    (dotCollapse l).length = l.length :=
  List.length_map l _

theorem mem_dotCollapse_keep (l : List Char)
    (h : ∀ c ∈ l, keepChar c = true) :
    ∀ c ∈ dotCollapse l, keepChar c = true := by
  intro c hc
  rw [dotCollapse] at hc
  obtain ⟨a, ha, rfl⟩ := List.mem_map.mp hc
  by_cases he : a = '.'
  · rw [if_pos he]; decide
  · rw [if_neg he]; exact h a ha

theorem basename_no_slash (l : List Char) : '/' ∉ basename l := by
  intro hc
  rw [basename, List.mem_reverse] at hc
  have := List.mem_takeWhile_imp hc
  simp at this

theorem basename_eq_self (l : List Char) (h : '/' ∉ l) : basename l = l := by
  rw [basename, List.takeWhile_eq_self_iff.mpr ?_, List.reverse_reverse]
  intro a ha
  rw [List.mem_reverse] at ha
  simp only [Bool.not_eq_eq_eq_not, Bool.not_true, decide_eq_false_iff_not]
  exact fun he => h (he ▸ ha)

theorem basename_length_le (l : List Char) :
    (basename l).length ≤ l.length := by
  rw [basename, List.length_reverse]
  calc (l.reverse.takeWhile _).length ≤ l.reverse.length :=
        (List.takeWhile_sublist _).length_le
    _ = l.length := List.length_reverse l

theorem sanitizePre_parts (l : List Char) :
    '/' ∉ reSubSan (basename l) := by
  intro hc
  have := mem_reSubSan_keep (basename l) _ hc
  simp [keepChar, reWordChar, reSpaceChar] at this

theorem sanitizePre_all_keep (l : List Char) :
    ∀ c ∈ sanitizePre l, keepChar c = true := by
  intro c hc
  rw [sanitizePre, List.mem_append] at hc
  have happ := splitext_append (reSubSan (basename l)) (sanitizePre_parts l)
  rcases hc with hc | hc
  · exact mem_dotCollapse_keep _
      (fun a ha => mem_reSubSan_keep _ a (happ ▸ List.mem_append.mpr (Or.inl ha)))
      c hc
  · exact mem_reSubSan_keep _ c (happ ▸ List.mem_append.mpr (Or.inr hc))

theorem sanitizePre_no_slash (l : List Char) : '/' ∉ sanitizePre l := by
  intro hc
  have := sanitizePre_all_keep l _ hc
  simp [keepChar, reWordChar, reSpaceChar] at this

theorem sanitizePre_length (l : List Char) :
    (sanitizePre l).length ≤ l.length := by
  rw [sanitizePre, List.length_append, dotCollapse_length]
  have happ := splitext_append (reSubSan (basename l)) (sanitizePre_parts l)
  have h1 := congrArg List.length happ
  rw [List.length_append, reSubSan_length] at h1
  have h2 := basename_length_le l
  omega

theorem truncate255_eq_self (f : List Char) (h : f.length ≤ 255) :
    truncate255 f = f := by
  rw [truncate255, if_neg (by omega)]

theorem sanitizePre_idem (l : List Char) :
    sanitizePre (sanitizePre l) = sanitizePre l := by
  have hkeep : ∀ c ∈ sanitizePre l, keepChar c = true := sanitizePre_all_keep l
  have hsl : '/' ∉ sanitizePre l := sanitizePre_no_slash l
  have hsf2 : '/' ∉ reSubSan (basename l) := sanitizePre_parts l
  rw [sanitizePre]
  rw [basename_eq_self _ hsl, reSubSan_eq_self _ hkeep]
  rcases splitext_shape (reSubSan (basename l)) hsf2 with he | ⟨t, het, hdt, hne⟩
  · have hpre : sanitizePre l =
        dotCollapse (splitext (reSubSan (basename l))).1 := by
      rw [sanitizePre, he, List.append_nil]
    have hnd : '.' ∉ sanitizePre l := by
      rw [hpre]; exact dotCollapse_no_dot _
    rw [splitext_no_dot _ hsl hnd]
    simp only
    rw [dotCollapse_eq_self _ hnd, List.append_nil]
  · have hpre : sanitizePre l =
        dotCollapse (splitext (reSubSan (basename l))).1 ++ '.' :: t := by
      rw [sanitizePre, het]
    have hnd : '.' ∉ dotCollapse (splitext (reSubSan (basename l))).1 :=
      dotCollapse_no_dot _
    have hs1 : '/' ∉ dotCollapse (splitext (reSubSan (basename l))).1 := by
      intro hc
      exact hsl (hpre ▸ List.mem_append.mpr (Or.inl hc))
    have hs2 : '/' ∉ t := by
      intro hc
      exact hsl (hpre ▸ List.mem_append.mpr (Or.inr (by simp [hc])))
    have hnne : dotCollapse (splitext (reSubSan (basename l))).1 ≠ [] := by
      intro hx
      rw [dotCollapse] at hx
      exact hne (List.map_eq_nil_iff.mp hx)
    rw [hpre, splitext_of_parts _ t hs1 hs2 hnd hnne hdt]
    simp only
    rw [dotCollapse_eq_self _ hnd]

set_option maxRecDepth 40000 in
/-- Claim C9 counterexample: sanitize is not idempotent on the
302-character `longDotName` — the first pass yields a 301-character
extension-only name, the second pass collapses its leading dot and
truncates. -/
theorem c9_idempotence_refuted :
    ¬ (sanitize_filename (sanitize_filename longDotName) =
        sanitize_filename longDotName) := by
  decide

/-- Claim C9 (amended): sanitize_filename is idempotent on every input of
length at most 255 characters (re-sanitizing can differ only when the
255-character truncation was triggered). -/
theorem c9_sanitize_idempotent_amended (x : String) (h : x.length ≤ 255) :
    sanitize_filename (sanitize_filename x) = sanitize_filename x := by
  have hx : x.data.length ≤ 255 := h
  have hlen : (sanitizePre x.data).length ≤ 255 := by
    have := sanitizePre_length x.data
    omega
  have h1 : sanitize_filename x = String.mk (sanitizePre x.data) := by
    rw [sanitize_filename, truncate255_eq_self _ hlen]
  rw [h1, sanitize_filename]
  show String.mk (truncate255 (sanitizePre (sanitizePre x.data))) =
    String.mk (sanitizePre x.data)
  rw [sanitizePre_idem, truncate255_eq_self _ hlen]

theorem c9_sanitize_idempotent_amended_witness :
    ("report.pdf".length ≤ 255) ∧
    sanitize_filename (sanitize_filename "report.pdf") =
      sanitize_filename "report.pdf" :=
  ⟨by decide, c9_sanitize_idempotent_amended "report.pdf" (by decide)⟩

end FUS
